import Mathlib

/-!
Shallow embedding of the pybit connector (async fork): the REST signing
routine `HTTP._auth`, the request/retry engine `HTTP._submit_request`, and
the WebSocket session state machine (`spot_topic`, `_emit`, `bind`,
`_reset`, `_on_error`, the `run_forever` supervisor).

Python strings are embedded as Lean `String`; the comparison and
substring-replacement primitives Python uses are re-implemented below by
structural recursion over the underlying character lists so that every
definition evaluates inside the kernel.
-/

/-- Python values appearing in request parameter maps.  The connector's
parameter dictionaries hold strings, integers, booleans and `None`
(the float-to-int normalization in `_submit_request` is the identity on
this domain, so floats are not modelled). -/
inductive PyVal where
  | vStr (s : String)
  | vInt (n : Int)
  | vBool (b : Bool)
  | vNone
deriving DecidableEq, Repr

/-- Python `str(v)` on the embedded value domain. -/
def pyStr : PyVal → String
  | .vStr s => s
  | .vInt n => toString n
  | .vBool true => "True"
  | .vBool false => "False"
  | .vNone => "None"

/-- Lexicographic (code-point) strict order on character lists: Python's
`<` on strings. -/
def chLt : List Char → List Char → Bool
  | [], [] => false
  | [], _ :: _ => true
  | _ :: _, [] => false
  | a :: as, b :: bs =>
    if a.toNat < b.toNat then true
    else if b.toNat < a.toNat then false
    else chLt as bs

/-- Strict order on dictionary entries used by Python's
`sorted(params.items())`: keys are compared; on a dictionary the keys are
unique, so the tuple comparison never reaches the values. -/
def entryLt {α : Type} (p q : String × α) : Bool := chLt p.1.data q.1.data

/-- Ordered insertion keeping an element after earlier equal elements
(stability, as Python's `sorted` guarantees). -/
def insertOrd {α : Type} (lt : α → α → Bool) (x : α) : List α → List α
  | [] => [x]
  | y :: ys => if lt y x then y :: insertOrd lt x ys else x :: y :: ys

/-- Stable insertion sort: the embedding of Python's `sorted`. -/
def sortOrd {α : Type} (lt : α → α → Bool) : List α → List α
  | [] => []
  | x :: xs => insertOrd lt x (sortOrd lt xs)

/-- `d[k] = v` on a Python dictionary embedded as an association list with
unique keys: overwrite in place when the key exists, append otherwise. -/
def dictSet {α : Type} (d : List (String × α)) (k : String) (v : α) :
    List (String × α) :=
  if d.any fun p => p.1 == k then
    d.map fun p => if p.1 == k then (k, v) else p
  else d ++ [(k, v)]

/-- Does the first list start with the second? -/
def listStartsWith : List Char → List Char → Bool
  | _, [] => true
  | [], _ :: _ => false
  | a :: as, b :: bs => a == b && listStartsWith as bs

/-- Fuel-driven left-to-right non-overlapping replacement, the semantics of
Python's `str.replace` for a non-empty pattern.  The fuel is the length of
the scanned list, which bounds the number of scanning steps. -/
def replaceFuel (pat rep : List Char) : Nat → List Char → List Char
  | 0, l => l
  | _ + 1, [] => []
  | fuel + 1, c :: cs =>
    if pat.length > 0 && listStartsWith (c :: cs) pat then
      rep ++ replaceFuel pat rep fuel (List.drop (pat.length - 1) cs)
    else c :: replaceFuel pat rep fuel cs

/-- Python `s.replace(pat, rep)` for a non-empty pattern. -/
def pyReplace (s pat rep : String) : String :=
  ⟨replaceFuel pat.data rep.data s.data.length s.data⟩

/-- Embedding of `HTTP._auth` (src/pybit/__init__.py).  The ambient inputs
Python reads from the object and the clock — `self.api_key`,
`self.api_secret`, and `int(time.time() * 10**3)` — are passed explicitly;
the HMAC-SHA256 hex-digest primitive from the standard library is passed
as the function `hmacHex secret message`.  Returns the signature together
with the parameter dictionary, which `_auth` mutates in place (the
injected `api_key`, `recv_window` and `timestamp` entries persist in the
caller's `query`).  A missing key raises `PermissionError`, embedded as
`Except.error`. -/
def HTTP.auth (api_key api_secret : Option String)
    (hmacHex : String → String → String) (method : String)
    (params : List (String × PyVal)) (recv_window timestamp : Int) :
    Except String (String × List (String × PyVal)) :=
  match api_key, api_secret with
  | some ak, some asec =>
    let params := dictSet params "api_key" (.vStr ak)
    let params := dictSet params "recv_window" (.vInt recv_window)
    let params := dictSet params "timestamp" (.vInt timestamp)
    let v := String.intercalate "&"
      (((sortOrd entryLt params).filter fun kv =>
          !(kv.1 == "sign") && !(kv.2 == PyVal.vNone)).map fun kv =>
        kv.1 ++ "=" ++ pyStr kv.2)
    let v := if method == "POST" then
        pyReplace (pyReplace v "True" "true") "False" "false"
      else v
    .ok (hmacHex asec v, params)
  | _, _ => .error "Authenticated endpoints require keys."

/-- The canonical query string as the specification describes it (§4.1):
inject `api_key`, `recv_window` and `timestamp` into the parameter map,
drop any existing `sign` field and any null-valued field, sort the
remaining entries by key, join them as `key=value` pairs with `&`, and for
body-style (POST) transmission lower-case the literal `True`/`False`
substrings.  Stated from the spec's words to be compared with the
source-derived `HTTP.auth`. -/
def canonicalStringSpec (api_key : String) (method : String)
    (params : List (String × PyVal)) (recv_window timestamp : Int) : String :=
  let injected :=
    dictSet (dictSet (dictSet params "api_key" (.vStr api_key))
      "recv_window" (.vInt recv_window)) "timestamp" (.vInt timestamp)
  let kept := injected.filter fun kv =>
    !(kv.1 == "sign") && !(kv.2 == PyVal.vNone)
  let joined := String.intercalate "&"
    ((sortOrd entryLt kept).map fun kv => kv.1 ++ "=" ++ pyStr kv.2)
  if method == "POST" then
    pyReplace (pyReplace joined "True" "true") "False" "false"
  else joined

/-- What the transport layer yields for one transmission attempt: a decoded
JSON envelope, a body that fails JSON decoding (`ContentTypeError`), or a
connection-level failure (`ClientConnectorError`/`ServerConnectionError`). -/
inductive TransportResult where
  | envelope (ret_code : Int) (ret_msg : String) (rate_limit_reset_ms : Option Int)
  | decodeFailure
  | connFailure
deriving DecidableEq, Repr

/-- The configuration fields of an `HTTP` session that `_submit_request`
and `_auth` read. -/
structure HTTPConfig where
  api_key : Option String
  api_secret : Option String
  max_retries : Nat
  retry_delay : Int
  force_retry : Bool
  retry_codes : List Int
  ignore_codes : List Int
  recv_window : Int
deriving DecidableEq, Repr

/-- How one call of `_submit_request` ends.  Raised exceptions are explicit
constructors; `failedRequest`/`invalidRequest` carry the request
description (method, path, filtered request parameters) together with the
error message and status code, as the exception objects do. -/
inductive SubmitOutcome where
  | ok (ret_code : Int) (ret_msg : String) (rate_limit_reset_ms : Option Int)
  | failedRequest (method path : String)
      (req_params : Option (List (String × PyVal)))
      (message : String) (status_code : Int)
  | invalidRequest (method path : String)
      (req_params : Option (List (String × PyVal)))
      (message : String) (status_code : Int)
  | permissionDenied (message : String)
  | keyFailure (field : String)
  | connFailure
deriving DecidableEq, Repr

/-- The observable result of one `_submit_request` call: the outcome, the
number of transmission attempts performed, and the sequence of sleeps
(in seconds) taken between attempts. -/
structure SubmitResult where
  outcome : SubmitOutcome
  transmissions : Nat
  sleeps : List Int
deriving DecidableEq, Repr

/-- The `while True` loop of `HTTP._submit_request`, embedded by recursion
on the value of `retries_attempted` at loop entry (the loop decrements it
first and raises once it goes negative, so it strictly decreases).
`responses k`, `nowAt k` and `tsAt k` give the transport result,
`int(time.time())` and `int(time.time() * 10**3)` observed at the k-th
transmission attempt. -/
def HTTP.submitLoop (cfg : HTTPConfig) (hmacHex : String → String → String)
    (responses : Nat → TransportResult) (nowAt tsAt : Nat → Int)
    (method path : String) (auth : Bool) :
    Nat → List (String × PyVal) → Int →
      Option (List (String × PyVal)) → Nat → SubmitResult
  | 0, _, _, req_params, _ =>
    ⟨.failedRequest method path req_params
      "Bad Request. Retries exceeded maximum." 400, 0, []⟩
  | fuel + 1, query, recv_window, _, attempt =>
    let authStep : Except String (List (String × PyVal)) :=
      if auth then
        match HTTP.auth cfg.api_key cfg.api_secret hmacHex method query
            recv_window (tsAt attempt) with
        | .error m => .error m
        | .ok (signature, query) =>
          .ok (dictSet (sortOrd entryLt query) "sign" (.vStr signature))
      else .ok query
    match authStep with
    | .error m => ⟨.permissionDenied m, 0, []⟩
    | .ok query =>
      let req_params := some (query.filter fun kv => !(kv.2 == PyVal.vNone))
      match responses attempt with
      | .decodeFailure =>
        if cfg.force_retry then
          let r := HTTP.submitLoop cfg hmacHex responses nowAt tsAt method path
            auth fuel query recv_window req_params (attempt + 1)
          ⟨r.outcome, r.transmissions + 1, cfg.retry_delay :: r.sleeps⟩
        else
          ⟨.failedRequest method path req_params
            "Conflict. Could not decode JSON." 409, 1, []⟩
      | .connFailure =>
        if cfg.force_retry then
          let r := HTTP.submitLoop cfg hmacHex responses nowAt tsAt method path
            auth fuel query recv_window req_params (attempt + 1)
          ⟨r.outcome, r.transmissions + 1, cfg.retry_delay :: r.sleeps⟩
        else
          ⟨.connFailure, 1, []⟩
      | .envelope ret_code ret_msg rate_limit_reset_ms =>
        if ret_code != 0 then
          if cfg.retry_codes.contains ret_code then
            if ret_code == 10002 then
              let r := HTTP.submitLoop cfg hmacHex responses nowAt tsAt method
                path auth fuel query (recv_window + 2500) req_params
                (attempt + 1)
              ⟨r.outcome, r.transmissions + 1, cfg.retry_delay :: r.sleeps⟩
            else if ret_code == 10006 then
              match rate_limit_reset_ms with
              | none => ⟨.keyFailure "rate_limit_reset_ms", 1, []⟩
              | some ms =>
                let err_delay := ms / 1000 - nowAt attempt
                let r := HTTP.submitLoop cfg hmacHex responses nowAt tsAt
                  method path auth fuel query recv_window req_params
                  (attempt + 1)
                ⟨r.outcome, r.transmissions + 1, err_delay :: r.sleeps⟩
            else
              let r := HTTP.submitLoop cfg hmacHex responses nowAt tsAt method
                path auth fuel query recv_window req_params (attempt + 1)
              ⟨r.outcome, r.transmissions + 1, cfg.retry_delay :: r.sleeps⟩
          else if cfg.ignore_codes.contains ret_code then
            let r := HTTP.submitLoop cfg hmacHex responses nowAt tsAt method
              path auth fuel query recv_window req_params (attempt + 1)
            ⟨r.outcome, r.transmissions + 1, r.sleeps⟩
          else
            ⟨.invalidRequest method path req_params ret_msg ret_code, 1, []⟩
        else
          ⟨.ok ret_code ret_msg rate_limit_reset_ms, 1, []⟩

/-- Embedding of `HTTP._submit_request`: initialize
`retries_attempted = max_retries`, `req_params = None`, and enter the
attempt loop. -/
def HTTP.submitRequest (cfg : HTTPConfig) (hmacHex : String → String → String)
    (responses : Nat → TransportResult) (nowAt tsAt : Nat → Int)
    (method path : String) (query : List (String × PyVal)) (auth : Bool) :
    SubmitResult :=
  HTTP.submitLoop cfg hmacHex responses nowAt tsAt method path auth
    cfg.max_retries query cfg.recv_window none 0

/-- A transport result that the retry branch of `_submit_request`
classifies as retryable and survives: a decoded envelope whose nonzero
`ret_code` is in the retryable set, carrying `rate_limit_reset_ms`
whenever the code is 10006 (without it the 10006 branch raises
`KeyError`). -/
def RetryableResp (cfg : HTTPConfig) (r : TransportResult) : Prop :=
  ∃ c m ms, r = .envelope c m ms ∧ c ≠ 0 ∧ cfg.retry_codes.contains c = true ∧
    (c = 10006 → ms ≠ none)

/-- Default retryable status codes of an `HTTP` session. -/
def defaultRetryCodes : List Int :=
  [10002, 10006, 10016, 30034, 30035, 130035, 130150]

/-- A stand-in for the HMAC-SHA256 hex-digest primitive, used where the
produced signature is irrelevant. -/
def hmacStub : String → String → String := fun _ _ => ""

/-- A frozen clock. -/
def clockStub : Nat → Int := fun _ => 0

/-- A session configured with an ignorable code 20001 and the default
retry policy, no credentials. -/
def cfgIgnore : HTTPConfig :=
  { api_key := none, api_secret := none, max_retries := 3, retry_delay := 3,
    force_retry := false, retry_codes := defaultRetryCodes,
    ignore_codes := [20001], recv_window := 5000 }

/-- A transport whose every response is a decoded envelope with
`ret_code = 20001`. -/
def respIgnorable : Nat → TransportResult :=
  fun _ => .envelope 20001 "Order not exists" none

/-- A session with `max_retries = 2` and default retry policy. -/
def cfgRetry2 : HTTPConfig :=
  { api_key := none, api_secret := none, max_retries := 2, retry_delay := 3,
    force_retry := false, retry_codes := defaultRetryCodes,
    ignore_codes := [], recv_window := 5000 }

/-- A transport whose every response carries retryable code 10016. -/
def respBusy : Nat → TransportResult :=
  fun _ => .envelope 10016 "connect to server fail" none

/-- A transport that always answers with rate-limit code 10006 and no
`rate_limit_reset_ms` field. -/
def respRateNoReset : Nat → TransportResult :=
  fun _ => .envelope 10006 "too many visits" none

/-- A transport answering 10006 with `rate_limit_reset_ms = 7500`. -/
def respRate : Nat → TransportResult :=
  fun _ => .envelope 10006 "too many visits" (some 7500)

/-- A clock frozen at epoch second 3. -/
def clockAt3 : Nat → Int := fun _ => 3

/-- A session with no credentials and `max_retries = 0`. -/
def cfgNoKeysZero : HTTPConfig :=
  { api_key := none, api_secret := none, max_retries := 0, retry_delay := 3,
    force_retry := false, retry_codes := defaultRetryCodes,
    ignore_codes := [], recv_window := 5000 }

/-- A transport that always answers success. -/
def respOk : Nat → TransportResult := fun _ => .envelope 0 "OK" none

/-- A caller-supplied message handler: whether
`asyncio.iscoroutinefunction` holds of it, plus an identity so distinct
handlers are distinguishable. -/
structure Handler where
  isCoroutine : Bool
  ident : Nat
deriving DecidableEq, Repr

/-- The mutable state of a `WebSocket` session read and written by `bind`,
`unbind`, `exit`, `_reset`, `_on_error` and `run_forever`: the handler
registry `self.handlers`, the reconnection flag `self.handle_error`
(initialized from `restart_on_error`), the `self.exited` flag, the socket
handle `self.ws` (`none` = closed), and the `self._subscribed` list. -/
structure WSState where
  handlers : List (String × Handler)
  handle_error : Bool
  exited : Bool
  ws : Option Nat
  subscribed : List String
deriving DecidableEq, Repr

/-- What `WebSocket._emit` does for one message: either the handler bound
to the topic is awaited with the message, or the registry lookup raises
`KeyError`. -/
inductive EmitResult where
  | invoked (h : Handler)
  | keyFailure (topic : String)
deriving DecidableEq, Repr

/-- Embedding of `WebSocket._emit`: `await self.handlers[topic](msg)`.
A topic with no binding raises `KeyError` (there is no guard). -/
def WebSocket.emit (handlers : List (String × Handler)) (topic : String) :
    EmitResult :=
  match handlers.lookup topic with
  | some h => .invoked h
  | none => .keyFailure topic

/-- The routing-relevant field of a derivatives-dialect message. -/
structure DerivMsg where
  topic : Option String
deriving DecidableEq, Repr

/-- The data-message branch of `WebSocket._consume_derivatives`:
`if 'topic' in msg: await self._emit(msg['topic'], msg)`; a message
without a topic falls to the subscription/auth-acknowledgement branches
(`none` here). -/
def WebSocket.consumeDerivativesData (handlers : List (String × Handler))
    (msg : DerivMsg) : Option EmitResult :=
  match msg.topic with
  | some t => some (WebSocket.emit handlers t)
  | none => none

/-- Embedding of `WebSocket.bind`: reject (with `ValueError`) any handler
that is not a coroutine function, otherwise store it under the topic. -/
def WebSocket.bind (s : WSState) (topic : String) (f : Handler) :
    Except String WSState :=
  if !f.isCoroutine then
    .error "Binded handler must be coroutine function!"
  else
    .ok { s with handlers := dictSet s.handlers topic f }

/-- Embedding of `WebSocket.unbind`: `del self.handlers[topic]`, raising
`KeyError` when the topic is unbound. -/
def WebSocket.unbind (s : WSState) (topic : String) : Except String WSState :=
  if (s.handlers.lookup topic).isSome then
    .ok { s with handlers := s.handlers.filter fun kv => !(kv.1 == topic) }
  else
    .error topic

/-- Embedding of `WebSocket._reset`: set state booleans and initialize the
subscription list; the handler registry is untouched. -/
def WebSocket.reset (s : WSState) : WSState :=
  { s with exited := false, ws := none, subscribed := [] }

/-- Embedding of `WebSocket.exit`: close and drop the socket, mark the
session exited. -/
def WebSocket.wsExit (s : WSState) : WSState :=
  { s with exited := true, ws := none }

/-- Embedding of `WebSocket._on_error`: exit, surface the error through
the reserved `error_cb` binding when present (the Bool reports whether it
was invoked), then reset for reconnection when `handle_error` is set. -/
def WebSocket.on_error (s : WSState) : WSState × Bool :=
  let s1 := WebSocket.wsExit s
  let emitted := (s1.handlers.lookup "error_cb").isSome
  if s1.handle_error then (WebSocket.reset s1, emitted) else (s1, emitted)

/-- The observable outcome of one `run_forever` iteration that ends in an
exception handler: the state afterwards, whether the reserved error
handler was invoked, and whether the loop broke (via the `finally` block's
`if self.exited: await self._on_close(); break`). -/
structure IterOutcome where
  state : WSState
  errorCbInvoked : Bool
  loopExited : Bool
deriving DecidableEq, Repr

/-- Embedding of the `except PermissionError` arm of
`WebSocket.run_forever` together with its `finally` block:
`self.handle_error = False`, then `await self._on_error(e)`, then break if
exited (`_on_close` closes once more). -/
def WebSocket.run_forever_on_permission_denied (s : WSState) : IterOutcome :=
  let s1 := { s with handle_error := false }
  let p := WebSocket.on_error s1
  if p.1.exited then ⟨WebSocket.wsExit p.1, p.2, true⟩
  else ⟨p.1, p.2, false⟩

/-- The `params` object of a segmented-public (spot) subscription or
inbound message: the fields `spot_topic` inspects. -/
structure SpotParams where
  klineType : Option String
  dumpScale : Option String
  symbol : Option String
deriving DecidableEq, Repr

/-- A segmented-public (spot) subscription or inbound message, restricted
to the fields `spot_topic` inspects (`event` is present on subscriptions
and ignored). -/
structure SpotMsg where
  topic : Option String
  symbol : Option String
  params : Option SpotParams
  event : Option String
deriving DecidableEq, Repr

/-- Embedding of `WebSocket.spot_topic`: canonical topic
`topic + spot version + [. + klineType|dumpScale] + . + symbol`; a missing
field raises `KeyError` (re-raised with the message appended), embedded as
`Except.error` naming the missing key. -/
def WebSocket.spot_topic (msg : SpotMsg) : Except String String :=
  match msg.topic with
  | none => .error "topic"
  | some t =>
    let topic := t ++ (if msg.symbol.isSome then "V1" else "V2")
    let topic :=
      match msg.params with
      | some ps =>
        match ps.klineType with
        | some k => topic ++ "." ++ k
        | none =>
          match ps.dumpScale with
          | some d => topic ++ "." ++ d
          | none => topic
      | none => topic
    match msg.symbol with
    | some s => .ok (topic ++ "." ++ s)
    | none =>
      match msg.params with
      | none => .error "params"
      | some ps =>
        match ps.symbol with
        | some s => .ok (topic ++ "." ++ s)
        | none => .error "symbol"

/-- The optional middle segment of a canonical spot topic: `"." ++
klineType` when present, else `"." ++ dumpScale` when present, else
empty. -/
def paramTag (msg : SpotMsg) : String :=
  match msg.params with
  | some ps =>
    match ps.klineType with
    | some k => "." ++ k
    | none =>
      match ps.dumpScale with
      | some d => "." ++ d
      | none => ""
  | none => ""

/-- An explicitly bound operation on the handler registry, as the caller
performs them (`bind` raising on non-coroutine handlers leaves the state
unchanged; `unbind` on an unbound topic raises `KeyError` and leaves the
state unchanged). -/
inductive WSOp where
  | bindOp (topic : String) (f : Handler)
  | unbindOp (topic : String)
deriving DecidableEq, Repr

/-- Apply one registry operation; a raised exception leaves the session
state as it was. -/
def applyOp (s : WSState) (op : WSOp) : WSState :=
  match op with
  | .bindOp t f =>
    match WebSocket.bind s t f with
    | .ok s2 => s2
    | .error _ => s
  | .unbindOp t =>
    match WebSocket.unbind s t with
    | .ok s2 => s2
    | .error _ => s

/-- Apply a sequence of registry operations. -/
def applyOps (s : WSState) : List WSOp → WSState
  | [] => s
  | op :: ops => applyOps (applyOp s op) ops

/-- Every handler stored in the registry is a coroutine function. -/
def allCoroutine (handlers : List (String × Handler)) : Prop :=
  ∀ kv ∈ handlers, kv.2.isCoroutine = true

/-- A sample coroutine handler. -/
def demoHandler : Handler := ⟨true, 7⟩

/-- A registry binding one market-data topic. -/
def demoRegistry : List (String × Handler) :=
  [("orderBookL2_25.BTCUSD", demoHandler)]

/-- A session with reconnection enabled, two bindings, an open socket and
one subscription. -/
def wsSample : WSState :=
  ⟨[("error_cb", ⟨true, 1⟩), ("orderBookL2_25.BTCUSD", ⟨true, 2⟩)],
   true, false, some 1, ["orderBookL2_25.BTCUSD"]⟩

/-- A fresh session with an empty registry. -/
def wsEmpty : WSState := ⟨[], true, false, none, []⟩

/-- A sample operation sequence: a successful bind, a rejected
non-coroutine bind, a successful unbind, and a failing unbind. -/
def demoOps : List WSOp :=
  [.bindOp "error_cb" ⟨true, 1⟩, .bindOp "trade.BTCUSD" ⟨false, 2⟩,
   .unbindOp "error_cb", .unbindOp "missing"]

theorem chLt_asymm : ∀ (a b : List Char), chLt a b = true → chLt b a = false := by
  intro a
  induction a with
  | nil =>
    intro b h
    cases b with
    | nil => simp [chLt] at h
    | cons y ys => simp [chLt]
  | cons x xs ih =>
    intro b h
    cases b with
    | nil => simp [chLt] at h
    | cons y ys =>
      simp only [chLt] at h ⊢
      rcases Nat.lt_trichotomy x.toNat y.toNat with h1 | h1 | h1
      · rw [if_neg (by omega), if_pos h1]
      · rw [if_neg (by omega), if_neg (by omega)] at h
        rw [if_neg (by omega), if_neg (by omega)]
        exact ih ys h
      · rw [if_neg (by omega), if_pos h1] at h
        exact absurd h (by simp)

theorem chLt_neg_trans : ∀ (a b c : List Char),
    chLt b a = false → chLt c b = false → chLt c a = false := by
  intro a
  induction a with
  | nil =>
    intro b c _ _
    cases c <;> simp [chLt]
  | cons x xs ih =>
    intro b c h1 h2
    cases b with
    | nil => simp [chLt] at h1
    | cons y ys =>
      cases c with
      | nil => simp [chLt] at h2
      | cons z zs =>
        simp only [chLt] at h1 h2 ⊢
        by_cases hyx : y.toNat < x.toNat
        · rw [if_pos hyx] at h1; exact absurd h1 (by simp)
        · by_cases hzy : z.toNat < y.toNat
          · rw [if_pos hzy] at h2; exact absurd h2 (by simp)
          · rw [if_neg (show ¬ z.toNat < x.toNat by omega)]
            by_cases hxz : x.toNat < z.toNat
            · rw [if_pos hxz]
            · rw [if_neg hxz]
              rw [if_neg hyx, if_neg (show ¬ x.toNat < y.toNat by omega)] at h1
              rw [if_neg hzy, if_neg (show ¬ y.toNat < z.toNat by omega)] at h2
              exact ih ys zs h1 h2

theorem entryLt_asymm {α : Type} (a b : String × α) :
    entryLt a b = true → entryLt b a = false :=
  fun h => chLt_asymm a.1.data b.1.data h

theorem entryLt_neg_trans {α : Type} (a b c : String × α) :
    entryLt b a = false → entryLt c b = false → entryLt c a = false :=
  fun h1 h2 => chLt_neg_trans a.1.data b.1.data c.1.data h1 h2

theorem mem_insertOrd {α : Type} (lt : α → α → Bool) (x : α) :
    ∀ (s : List α) (z : α), z ∈ insertOrd lt x s ↔ z = x ∨ z ∈ s := by
  intro s
  induction s with
  | nil => intro z; simp [insertOrd]
  | cons y ys ih =>
    intro z
    cases hlt : lt y x <;> simp [insertOrd, hlt, ih] <;> tauto

theorem pairwise_insertOrd {α : Type} (lt : α → α → Bool)
    (hasymm : ∀ a b, lt a b = true → lt b a = false)
    (hnt : ∀ a b c, lt b a = false → lt c b = false → lt c a = false)
    (x : α) :
    ∀ (s : List α), s.Pairwise (fun a b => lt b a = false) →
      (insertOrd lt x s).Pairwise (fun a b => lt b a = false) := by
  intro s
  induction s with
  | nil => intro _; simp [insertOrd]
  | cons y ys ih =>
    intro hp
    rcases List.pairwise_cons.mp hp with ⟨hy, hys⟩
    cases hlt : lt y x with
    | true =>
      simp only [insertOrd, hlt, if_pos]
      refine List.pairwise_cons.mpr ⟨?_, ih hys⟩
      intro z hz
      rcases (mem_insertOrd lt x ys z).mp hz with hzx | hzys
      · subst hzx; exact hasymm y z hlt
      · exact hy z hzys
    | false =>
      simp only [insertOrd, hlt]
      refine List.pairwise_cons.mpr ⟨?_, hp⟩
      intro z hz
      rcases List.mem_cons.mp hz with hzy | hzys
      · subst hzy; exact hlt
      · exact hnt x y z hlt (hy z hzys)

theorem insertOrd_all_ge {α : Type} (lt : α → α → Bool) (x : α) :
    ∀ (t : List α), (∀ z ∈ t, lt z x = false) → insertOrd lt x t = x :: t := by
  intro t h
  cases t with
  | nil => rfl
  | cons z zs => simp [insertOrd, h z (by simp)]

theorem filter_insertOrd_neg {α : Type} (lt : α → α → Bool) (p : α → Bool)
    (x : α) (hx : p x = false) :
    ∀ (s : List α), (insertOrd lt x s).filter p = s.filter p := by
  intro s
  induction s with
  | nil => simp [insertOrd, hx]
  | cons y ys ih =>
    cases hlt : lt y x <;> cases hy : p y <;>
      simp [insertOrd, hlt, hx, hy, List.filter, ih]

theorem filter_insertOrd_pos {α : Type} (lt : α → α → Bool)
    (hnt : ∀ a b c, lt b a = false → lt c b = false → lt c a = false)
    (p : α → Bool) (x : α) (hx : p x = true) :
    ∀ (s : List α), s.Pairwise (fun a b => lt b a = false) →
      (insertOrd lt x s).filter p = insertOrd lt x (s.filter p) := by
  intro s
  induction s with
  | nil => simp [insertOrd, hx]
  | cons y ys ih =>
    intro hp
    rcases List.pairwise_cons.mp hp with ⟨hy, hys⟩
    cases hlt : lt y x with
    | true =>
      cases hpy : p y <;>
        simp [insertOrd, hlt, hpy, List.filter, ih hys, hx]
    | false =>
      cases hpy : p y with
      | true => simp [insertOrd, hlt, hpy, List.filter, hx]
      | false =>
        have hall : ∀ z ∈ ys.filter p, lt z x = false := by
          intro z hz
          exact hnt x y z hlt (hy z (List.mem_of_mem_filter hz))
        simp [insertOrd, hlt, hpy, List.filter, hx,
          insertOrd_all_ge lt x (ys.filter p) hall]

theorem pairwise_sortOrd {α : Type} (lt : α → α → Bool)
    (hasymm : ∀ a b, lt a b = true → lt b a = false)
    (hnt : ∀ a b c, lt b a = false → lt c b = false → lt c a = false) :
    ∀ (l : List α), (sortOrd lt l).Pairwise (fun a b => lt b a = false) := by
  intro l
  induction l with
  | nil => simp [sortOrd]
  | cons x xs ih => exact pairwise_insertOrd lt hasymm hnt x (sortOrd lt xs) ih

theorem sortOrd_filter {α : Type} (lt : α → α → Bool)
    (hasymm : ∀ a b, lt a b = true → lt b a = false)
    (hnt : ∀ a b c, lt b a = false → lt c b = false → lt c a = false)
    (p : α → Bool) :
    ∀ (l : List α), sortOrd lt (l.filter p) = (sortOrd lt l).filter p := by
  intro l
  induction l with
  | nil => simp [sortOrd]
  | cons x xs ih =>
    cases hx : p x with
    | true =>
      simp only [List.filter, hx, sortOrd, ih]
      rw [filter_insertOrd_pos lt hnt p x hx (sortOrd lt xs)
        (pairwise_sortOrd lt hasymm hnt xs)]
    | false =>
      simp only [List.filter, hx, sortOrd, ih]
      rw [filter_insertOrd_neg lt p x hx (sortOrd lt xs)]

/-- C4: the signature produced by `HTTP._auth` is exactly the HMAC-SHA256
hex digest, keyed by the secret, of the canonical query string described
by the spec (inject `api_key`/`recv_window`/`timestamp`, drop `sign` and
null-valued fields, sort by key, join with `&`, lower-case `True`/`False`
for POST).  Being a pure function of its inputs, the digest is determined
by them. -/
theorem C4_auth_signature (api_key api_secret : Option String)
    (hmacHex : String → String → String) (method : String)
    (params : List (String × PyVal)) (recv_window timestamp : Int)
    (ak asec : String) (hk : api_key = some ak) (hs : api_secret = some asec) :
    ∃ updated, HTTP.auth api_key api_secret hmacHex method params
        recv_window timestamp =
      .ok (hmacHex asec
        (canonicalStringSpec ak method params recv_window timestamp),
        updated) := by
  subst hk hs
  refine ⟨dictSet (dictSet (dictSet params "api_key" (.vStr ak))
    "recv_window" (.vInt recv_window)) "timestamp" (.vInt timestamp), ?_⟩
  simp only [HTTP.auth, canonicalStringSpec]
  rw [sortOrd_filter entryLt (fun a b => entryLt_asymm a b)
    (fun a b c => entryLt_neg_trans a b c)]

/-- Witness for C4 at concrete inputs. -/
theorem C4_witness :
    ∃ updated,
      HTTP.auth (some "key") (some "sec") (fun s v => s ++ "#" ++ v) "POST"
        [("reduce_only", PyVal.vBool true), ("note", PyVal.vNone)] 5000 1234 =
      .ok ((fun s v => s ++ "#" ++ v) "sec"
        (canonicalStringSpec "key" "POST"
          [("reduce_only", PyVal.vBool true), ("note", PyVal.vNone)] 5000 1234),
        updated) :=
  C4_auth_signature (some "key") (some "sec") (fun s v => s ++ "#" ++ v) "POST"
    [("reduce_only", PyVal.vBool true), ("note", PyVal.vNone)] 5000 1234
    "key" "sec" rfl rfl

theorem auth_ok_of_keys (cfg : HTTPConfig) (hmacHex : String → String → String)
    (method : String) (query : List (String × PyVal)) (recv : Int) (ts : Int)
    (ak asec : String) (hk : cfg.api_key = some ak)
    (hs : cfg.api_secret = some asec) :
    ∃ sig params, HTTP.auth cfg.api_key cfg.api_secret hmacHex method query
      recv ts = .ok (sig, params) := by
  rw [hk, hs]
  exact ⟨_, _, rfl⟩

theorem authStep_ok (cfg : HTTPConfig) (hmacHex : String → String → String)
    (method : String) (q : List (String × PyVal)) (recv ts : Int) (auth : Bool)
    (hkeys : auth = true →
      ∃ ak asec, cfg.api_key = some ak ∧ cfg.api_secret = some asec) :
    ∃ q2, (if auth then
        match HTTP.auth cfg.api_key cfg.api_secret hmacHex method q recv
            ts with
        | .error m => Except.error m
        | .ok (signature, query) =>
          Except.ok (dictSet (sortOrd entryLt query) "sign" (.vStr signature))
      else Except.ok q) = Except.ok q2 := by
  cases auth with
  | false => exact ⟨q, rfl⟩
  | true =>
    rcases hkeys rfl with ⟨ak, asec, hk, hs⟩
    rcases auth_ok_of_keys cfg hmacHex method q recv ts ak asec hk hs
      with ⟨sig, params, heq⟩
    refine ⟨dictSet (sortOrd entryLt params) "sign" (.vStr sig), ?_⟩
    simp [heq]

theorem submitLoop_transmissions_le (cfg : HTTPConfig)
    (hmacHex : String → String → String) (responses : Nat → TransportResult)
    (nowAt tsAt : Nat → Int) (method path : String) (auth : Bool) :
    ∀ (fuel : Nat) (query : List (String × PyVal)) (recv_window : Int)
      (req_params : Option (List (String × PyVal))) (attempt : Nat),
      (HTTP.submitLoop cfg hmacHex responses nowAt tsAt method path auth fuel
        query recv_window req_params attempt).transmissions ≤ fuel := by
  intro fuel
  induction fuel with
  | zero => intro q r rp a; exact Nat.le_refl 0
  | succ n ih =>
    intro q recv rp a
    simp only [HTTP.submitLoop]
    repeat' split
    all_goals
      first
      | exact Nat.succ_le_succ (ih _ _ _ _)
      | exact Nat.succ_le_succ (Nat.zero_le n)
      | exact Nat.zero_le _

theorem submitLoop_all_retry (cfg : HTTPConfig)
    (hmacHex : String → String → String) (responses : Nat → TransportResult)
    (nowAt tsAt : Nat → Int) (method path : String) (auth : Bool)
    (hkeys : auth = true →
      ∃ ak asec, cfg.api_key = some ak ∧ cfg.api_secret = some asec)
    (hresp : ∀ k, RetryableResp cfg (responses k)) :
    ∀ (fuel : Nat) (query : List (String × PyVal)) (recv_window : Int)
      (req_params : Option (List (String × PyVal))) (attempt : Nat),
      ∃ rp,
        (HTTP.submitLoop cfg hmacHex responses nowAt tsAt method path auth
          fuel query recv_window req_params attempt).outcome
          = .failedRequest method path rp
              "Bad Request. Retries exceeded maximum." 400 ∧
        (HTTP.submitLoop cfg hmacHex responses nowAt tsAt method path auth
          fuel query recv_window req_params attempt).transmissions = fuel := by
  intro fuel
  induction fuel with
  | zero => intro q r rp a; exact ⟨rp, rfl, rfl⟩
  | succ n ih =>
    intro q recv rp a
    rcases authStep_ok cfg hmacHex method q recv (tsAt a) auth hkeys
      with ⟨q2, hq2⟩
    rcases hresp a with ⟨c, m, ms, hre, hc0, hcontains, h10006⟩
    simp only [HTTP.submitLoop, hq2, hre]
    have hbne : (c != 0) = true := by simpa [bne] using hc0
    rw [hbne, if_pos rfl, hcontains, if_pos rfl]
    by_cases hc2 : c = 10002
    · rw [if_pos (show (c == 10002) = true by simp [hc2])]
      rcases ih q2 (recv + 2500)
        (some (List.filter (fun kv => !(kv.2 == PyVal.vNone)) q2)) (a + 1)
        with ⟨rp2, ho, ht⟩
      exact ⟨rp2, ho, by simp [ht]⟩
    · rw [if_neg (show ¬ (c == 10002) = true by simp [hc2])]
      by_cases hc6 : c = 10006
      · rw [if_pos (show (c == 10006) = true by simp [hc6])]
        cases ms with
        | none => exact absurd rfl (h10006 hc6)
        | some v =>
          rcases ih q2 recv
            (some (List.filter (fun kv => !(kv.2 == PyVal.vNone)) q2)) (a + 1)
            with ⟨rp2, ho, ht⟩
          exact ⟨rp2, ho, by simp [ht]⟩
      · rw [if_neg (show ¬ (c == 10006) = true by simp [hc6])]
        rcases ih q2 recv
          (some (List.filter (fun kv => !(kv.2 == PyVal.vNone)) q2)) (a + 1)
          with ⟨rp2, ho, ht⟩
        exact ⟨rp2, ho, by simp [ht]⟩

theorem submitLoop_pos (cfg : HTTPConfig)
    (hmacHex : String → String → String) (responses : Nat → TransportResult)
    (nowAt tsAt : Nat → Int) (method path : String) (auth : Bool)
    (hkeys : auth = true →
      ∃ ak asec, cfg.api_key = some ak ∧ cfg.api_secret = some asec) :
    ∀ (fuel : Nat) (query : List (String × PyVal)) (recv_window : Int)
      (req_params : Option (List (String × PyVal))) (attempt : Nat),
      1 ≤ (HTTP.submitLoop cfg hmacHex responses nowAt tsAt method path auth
        (fuel + 1) query recv_window req_params attempt).transmissions := by
  intro fuel q recv rp a
  rcases authStep_ok cfg hmacHex method q recv (tsAt a) auth hkeys
    with ⟨q2, hq2⟩
  simp only [HTTP.submitLoop, hq2]
  repeat' split
  all_goals exact Nat.succ_le_succ (Nat.zero_le _)

/-- C1: the claim says a response whose nonzero `ret_code` is in the
ignorable set is treated as success — the envelope is returned as-is with
no further transmission.  The code does not do this: the `elif ret_code in
ignore_codes: pass` branch falls through to the end of the `while True`
body with no `return`, so the request is transmitted again; with every
response ignorable the loop exhausts `max_retries` and raises
`FailedRequestError`.  This contradicts the session's own documentation of
`ignore_codes` ("status codes to ignore"): the `return s_json` is missing
from that path.  Evaluated here: 3 transmissions and a retries-exceeded
error instead of 1 transmission and the envelope. -/
theorem C1_ignorable_code_fails :
    HTTP.submitRequest cfgIgnore hmacStub respIgnorable clockStub clockStub
      "GET" "/v2/private/order/cancel" [] false
    = ⟨.failedRequest "GET" "/v2/private/order/cancel" (some [])
        "Bad Request. Retries exceeded maximum." 400, 3, []⟩ := by
  decide

/-- C2 counterexample: with `max_retries = 2` and every response
retryable, `execute` performs exactly 2 transmission attempts — not
`max_retries + 1 = 3` — and raises the retries-exceeded error after the
2nd attempt, i.e. before any `(n+1)`-th attempt. -/
theorem C2_counterexample :
    (HTTP.submitRequest cfgRetry2 hmacStub respBusy clockStub clockStub
      "GET" "/v2/public/time" [] false).transmissions = 2 ∧
    ¬ (HTTP.submitRequest cfgRetry2 hmacStub respBusy clockStub clockStub
      "GET" "/v2/public/time" [] false).transmissions
        = cfgRetry2.max_retries + 1 ∧
    (HTTP.submitRequest cfgRetry2 hmacStub respBusy clockStub clockStub
      "GET" "/v2/public/time" [] false).outcome
      = .failedRequest "GET" "/v2/public/time" (some [])
          "Bad Request. Retries exceeded maximum." 400 := by
  refine ⟨by decide, by decide, by decide⟩

/-- C2 (amended): `execute` performs at most `max_retries` total
transmission attempts (not `max_retries + 1`), and when every attempt ends
in a retryable condition it raises the retries-exceeded
`FailedRequestError` — carrying the attempted request description — after
the `max_retries`-th attempt (immediately, with zero attempts, when
`max_retries = 0`). -/
theorem C2_attempt_bound (cfg : HTTPConfig)
    (hmacHex : String → String → String) (responses : Nat → TransportResult)
    (nowAt tsAt : Nat → Int) (method path : String)
    (query : List (String × PyVal)) (auth : Bool)
    (hkeys : auth = true →
      ∃ ak asec, cfg.api_key = some ak ∧ cfg.api_secret = some asec)
    (hresp : ∀ k, RetryableResp cfg (responses k)) :
    (∀ (responses2 : Nat → TransportResult) (auth2 : Bool)
        (query2 : List (String × PyVal)),
      (HTTP.submitRequest cfg hmacHex responses2 nowAt tsAt method path query2
        auth2).transmissions ≤ cfg.max_retries) ∧
    (∃ rp,
      (HTTP.submitRequest cfg hmacHex responses nowAt tsAt method path query
        auth).outcome
        = .failedRequest method path rp
            "Bad Request. Retries exceeded maximum." 400) ∧
    (HTTP.submitRequest cfg hmacHex responses nowAt tsAt method path query
      auth).transmissions = cfg.max_retries := by
  refine ⟨?_, ?_, ?_⟩
  · intro responses2 auth2 query2
    exact submitLoop_transmissions_le cfg hmacHex responses2 nowAt tsAt method
      path auth2 cfg.max_retries query2 cfg.recv_window none 0
  · rcases submitLoop_all_retry cfg hmacHex responses nowAt tsAt method path
      auth hkeys hresp cfg.max_retries query cfg.recv_window none 0
      with ⟨rp, ho, _⟩
    exact ⟨rp, ho⟩
  · rcases submitLoop_all_retry cfg hmacHex responses nowAt tsAt method path
      auth hkeys hresp cfg.max_retries query cfg.recv_window none 0
      with ⟨rp, _, ht⟩
    exact ht

/-- Witness for C2 at concrete inputs. -/
theorem C2_witness :
    (∀ (responses2 : Nat → TransportResult) (auth2 : Bool)
        (query2 : List (String × PyVal)),
      (HTTP.submitRequest cfgRetry2 hmacStub responses2 clockStub clockStub
        "GET" "/v2/public/time" query2 auth2).transmissions
        ≤ cfgRetry2.max_retries) ∧
    (∃ rp,
      (HTTP.submitRequest cfgRetry2 hmacStub respBusy clockStub clockStub
        "GET" "/v2/public/time" [] false).outcome
        = .failedRequest "GET" "/v2/public/time" rp
            "Bad Request. Retries exceeded maximum." 400) ∧
    (HTTP.submitRequest cfgRetry2 hmacStub respBusy clockStub clockStub
      "GET" "/v2/public/time" [] false).transmissions
      = cfgRetry2.max_retries :=
  C2_attempt_bound cfgRetry2 hmacStub respBusy clockStub clockStub
    "GET" "/v2/public/time" [] false
    (fun h => absurd h (by decide))
    (fun _ => ⟨10016, "connect to server fail", none, rfl, by decide,
      by decide, fun h => absurd h (by decide)⟩)

/-- C3 counterexample: when a 10006 response carries no
`rate_limit_reset_ms`, the claim says the sleep is floored at the
configured default retry delay and the request is still retried.  Instead
`s_json['rate_limit_reset_ms']` raises `KeyError`: the call ends after one
transmission with no sleep and no retry. -/
theorem C3_counterexample :
    HTTP.submitRequest cfgRetry2 hmacStub respRateNoReset clockStub clockStub
      "GET" "/v2/public/time" [] false
    = ⟨.keyFailure "rate_limit_reset_ms", 1, []⟩ := by
  decide

/-- C3 (amended): on a 10006 response that carries `rate_limit_reset_ms`,
the retry sleep is `int(rate_limit_reset_ms / 1000) - int(time.time())` —
the server-supplied reset timestamp minus the current time — and the
request is resubmitted (a second transmission occurs when attempts
remain); on a 10006 response without the field the call raises `KeyError`
rather than flooring the sleep at the default delay and retrying. -/
theorem C3_rate_limit_sleep (cfg : HTTPConfig)
    (hmacHex : String → String → String) (responses : Nat → TransportResult)
    (nowAt tsAt : Nat → Int) (method path : String)
    (query : List (String × PyVal)) (auth : Bool)
    (hkeys : auth = true →
      ∃ ak asec, cfg.api_key = some ak ∧ cfg.api_secret = some asec)
    (hmr : 1 ≤ cfg.max_retries)
    (hretry : cfg.retry_codes.contains 10006 = true) :
    (∀ m ms, responses 0 = .envelope 10006 m (some ms) →
      (∃ rest,
        (HTTP.submitRequest cfg hmacHex responses nowAt tsAt method path query
          auth).sleeps = (ms / 1000 - nowAt 0) :: rest) ∧
      (2 ≤ cfg.max_retries →
        2 ≤ (HTTP.submitRequest cfg hmacHex responses nowAt tsAt method path
          query auth).transmissions)) ∧
    (∀ m, responses 0 = .envelope 10006 m none →
      HTTP.submitRequest cfg hmacHex responses nowAt tsAt method path query
        auth = ⟨.keyFailure "rate_limit_reset_ms", 1, []⟩) := by
  obtain ⟨n, hn⟩ : ∃ n, cfg.max_retries = n + 1 :=
    ⟨cfg.max_retries - 1, by omega⟩
  rcases authStep_ok cfg hmacHex method query cfg.recv_window (tsAt 0) auth
    hkeys with ⟨q2, hq2⟩
  constructor
  · intro m ms h0
    simp only [HTTP.submitRequest, hn, HTTP.submitLoop, hq2, h0]
    rw [show ((10006 : Int) != 0) = true from by decide, if_pos rfl,
      hretry, if_pos rfl,
      if_neg (show ¬ ((10006 : Int) == 10002) = true from by decide),
      if_pos (show ((10006 : Int) == 10006) = true from by decide)]
    constructor
    · exact ⟨_, rfl⟩
    · intro h2
      obtain ⟨n2, hn2⟩ : ∃ n2, n = n2 + 1 := ⟨n - 1, by omega⟩
      rw [hn2]
      exact Nat.succ_le_succ (submitLoop_pos cfg hmacHex responses nowAt tsAt
        method path auth hkeys n2 q2 cfg.recv_window
        (some (List.filter (fun kv => !(kv.2 == PyVal.vNone)) q2)) (0 + 1))
  · intro m h0
    simp only [HTTP.submitRequest, hn, HTTP.submitLoop, hq2, h0]
    rw [show ((10006 : Int) != 0) = true from by decide, if_pos rfl,
      hretry, if_pos rfl,
      if_neg (show ¬ ((10006 : Int) == 10002) = true from by decide),
      if_pos (show ((10006 : Int) == 10006) = true from by decide)]

/-- Witness for C3 at concrete inputs: the first sleep is
`7500 / 1000 - 3 = 4` seconds and a second transmission occurs. -/
theorem C3_witness :
    (∃ rest,
      (HTTP.submitRequest cfgRetry2 hmacStub respRate clockAt3 clockStub
        "GET" "/v2/public/time" [] false).sleeps
        = ((7500 : Int) / 1000 - clockAt3 0) :: rest) ∧
    2 ≤ (HTTP.submitRequest cfgRetry2 hmacStub respRate clockAt3 clockStub
      "GET" "/v2/public/time" [] false).transmissions :=
  let h := C3_rate_limit_sleep cfgRetry2 hmacStub respRate clockAt3 clockStub
    "GET" "/v2/public/time" [] false
    (fun hc => absurd hc (by decide)) (by decide) (by decide)
  ⟨(h.1 "too many visits" 7500 rfl).1,
   (h.1 "too many visits" 7500 rfl).2 (by decide)⟩

/-- C6 counterexample: on a session with no credentials but
`max_retries = 0`, a signed call raises the retries-exceeded
`FailedRequestError` (the attempt counter goes negative before the
credential check is reached), not a configuration/authentication error, so
the claim does not hold for every session. -/
theorem C6_counterexample :
    HTTP.submitRequest cfgNoKeysZero hmacStub respOk clockStub clockStub
      "GET" "/v2/private/wallet/balance" [] true
    = ⟨.failedRequest "GET" "/v2/private/wallet/balance" none
        "Bad Request. Retries exceeded maximum." 400, 0, []⟩ := by
  decide

/-- C6 (amended): on a session allowing at least one attempt
(`max_retries ≥ 1`), a signed call with `api_key` or `api_secret` absent
raises `PermissionError` synchronously — zero transmissions, zero sleeps,
no retry. -/
theorem C6_missing_credentials (cfg : HTTPConfig)
    (hmacHex : String → String → String) (responses : Nat → TransportResult)
    (nowAt tsAt : Nat → Int) (method path : String)
    (query : List (String × PyVal))
    (hmr : 1 ≤ cfg.max_retries)
    (hnk : cfg.api_key = none ∨ cfg.api_secret = none) :
    HTTP.submitRequest cfg hmacHex responses nowAt tsAt method path query true
      = ⟨.permissionDenied "Authenticated endpoints require keys.", 0, []⟩ := by
  obtain ⟨n, hn⟩ : ∃ n, cfg.max_retries = n + 1 :=
    ⟨cfg.max_retries - 1, by omega⟩
  have hauth : HTTP.auth cfg.api_key cfg.api_secret hmacHex method query
      cfg.recv_window (tsAt 0)
      = .error "Authenticated endpoints require keys." := by
    rcases hnk with h | h
    · rw [h]; cases cfg.api_secret <;> rfl
    · rw [h]; cases cfg.api_key <;> rfl
  simp only [HTTP.submitRequest, hn, HTTP.submitLoop, hauth]
  rfl

/-- Witness for C6 at concrete inputs. -/
theorem C6_witness :
    HTTP.submitRequest cfgIgnore hmacStub respOk clockStub clockStub
      "GET" "/v2/private/wallet/balance" [] true
      = ⟨.permissionDenied "Authenticated endpoints require keys.", 0, []⟩ :=
  C6_missing_credentials cfgIgnore hmacStub respOk clockStub clockStub
    "GET" "/v2/private/wallet/balance" [] (by decide) (Or.inl rfl)

theorem mem_dictSet {α : Type} (d : List (String × α)) (k : String) (v : α) :
    ∀ kv ∈ dictSet d k v, kv = (k, v) ∨ kv ∈ d := by
  intro kv hkv
  unfold dictSet at hkv
  by_cases h : d.any (fun p => p.1 == k)
  · rw [if_pos h] at hkv
    rcases List.mem_map.mp hkv with ⟨p, hp, hpe⟩
    by_cases hpk : (p.1 == k) = true
    · left; rw [← hpe, if_pos hpk]
    · right; rw [← hpe, if_neg hpk]; exact hp
  · rw [if_neg h] at hkv
    rcases List.mem_append.mp hkv with h1 | h1
    · right; exact h1
    · left; simpa using h1

theorem allCoroutine_applyOp (s : WSState) (op : WSOp)
    (hs : allCoroutine s.handlers) : allCoroutine (applyOp s op).handlers := by
  cases op with
  | bindOp t f =>
    cases hf : f.isCoroutine with
    | false =>
      simp only [applyOp, WebSocket.bind, hf]
      exact hs
    | true =>
      simp only [applyOp, WebSocket.bind, hf]
      intro kv hkv
      rcases mem_dictSet s.handlers t f kv hkv with he | hm
      · rw [he]; exact hf
      · exact hs kv hm
  | unbindOp t =>
    by_cases hl : (s.handlers.lookup t).isSome
    · simp only [applyOp, WebSocket.unbind, hl, if_pos]
      intro kv hkv
      exact hs kv (List.mem_of_mem_filter hkv)
    · simp only [applyOp, WebSocket.unbind, hl]
      exact hs

theorem allCoroutine_applyOps (ops : List WSOp) :
    ∀ (s : WSState), allCoroutine s.handlers →
      allCoroutine (applyOps s ops).handlers := by
  induction ops with
  | nil => intro s hs; exact hs
  | cons op ops ih =>
    intro s hs
    exact ih (applyOp s op) (allCoroutine_applyOp s op hs)

/-- C5 counterexample: the claim says a message whose canonical topic has
no bound handler is dropped without raising; but `_emit` is
`await self.handlers[topic](msg)` with no membership guard, so dispatching
a data message for an unbound topic raises `KeyError`. -/
theorem C5_counterexample :
    WebSocket.consumeDerivativesData [] ⟨some "trade.BTCUSD"⟩
      = some (EmitResult.keyFailure "trade.BTCUSD") := rfl

/-- C5 (amended): dispatch of a message whose topic has a bound handler
invokes exactly that handler; dispatch of an unbound topic raises
`KeyError` from the registry lookup (it is not silently dropped).  The
derivatives consumer forwards every message carrying a topic to `_emit`
unconditionally. -/
theorem C5_dispatch_routing (handlers : List (String × Handler))
    (topic : String) :
    (handlers.lookup topic = none →
      WebSocket.emit handlers topic = .keyFailure topic) ∧
    (∀ h, handlers.lookup topic = some h →
      WebSocket.emit handlers topic = .invoked h) ∧
    (∀ (msg : DerivMsg) (t : String), msg.topic = some t →
      WebSocket.consumeDerivativesData handlers msg
        = some (WebSocket.emit handlers t)) := by
  refine ⟨?_, ?_, ?_⟩
  · intro h; simp [WebSocket.emit, h]
  · intro hd h; simp [WebSocket.emit, h]
  · rintro ⟨mt⟩ t ht
    simp only at ht
    subst ht
    rfl

/-- Witness for C5 at concrete inputs. -/
theorem C5_witness :
    WebSocket.emit demoRegistry "orderBookL2_25.BTCUSD"
      = .invoked demoHandler ∧
    WebSocket.emit demoRegistry "trade.BTCUSD"
      = .keyFailure "trade.BTCUSD" :=
  ⟨(C5_dispatch_routing demoRegistry "orderBookL2_25.BTCUSD").2.1 demoHandler
      (by decide),
   (C5_dispatch_routing demoRegistry "trade.BTCUSD").1 (by decide)⟩

/-- C7: `spot_topic` is a pure function computing
`topic + (V1 when the message carries a bare symbol field, else V2) +
(optionally . + klineType or dumpScale) + . + symbol`; the subscription
and the inbound message for depth of ETHUSDT both canonicalize to
`depthV2.ETHUSDT`, and a bare-symbol trade message canonicalizes to
`tradeV1.BTCUSD`. -/
theorem C7_spot_topic :
    (∀ (msg : SpotMsg) (t s : String), msg.topic = some t →
      msg.symbol = some s →
      WebSocket.spot_topic msg = .ok (t ++ "V1" ++ paramTag msg ++ "." ++ s)) ∧
    (∀ (msg : SpotMsg) (t : String) (ps : SpotParams) (s : String),
      msg.topic = some t → msg.symbol = none → msg.params = some ps →
      ps.symbol = some s →
      WebSocket.spot_topic msg = .ok (t ++ "V2" ++ paramTag msg ++ "." ++ s)) ∧
    WebSocket.spot_topic
      ⟨some "depth", none, some ⟨none, none, some "ETHUSDT"⟩, some "sub"⟩
      = .ok "depthV2.ETHUSDT" ∧
    WebSocket.spot_topic
      ⟨some "depth", none, some ⟨none, none, some "ETHUSDT"⟩, none⟩
      = .ok "depthV2.ETHUSDT" ∧
    WebSocket.spot_topic ⟨some "trade", some "BTCUSD", none, none⟩
      = .ok "tradeV1.BTCUSD" := by
  refine ⟨?_, ?_, rfl, rfl, rfl⟩
  · rintro ⟨mt, msym, mp, mev⟩ t s ht hs
    simp only at ht hs
    subst ht hs
    cases mp with
    | none => simp [WebSocket.spot_topic, paramTag]
    | some ps =>
      rcases ps with ⟨kt, ds, psym⟩
      cases kt with
      | some k =>
        simp [WebSocket.spot_topic, paramTag, String.append_assoc]
        rfl
      | none =>
        cases ds with
        | some d =>
          simp [WebSocket.spot_topic, paramTag, String.append_assoc]
          rfl
        | none => simp [WebSocket.spot_topic, paramTag]
  · rintro ⟨mt, msym, mp, mev⟩ t ps s ht hsym hp hpsym
    simp only at ht hsym hp
    subst ht hsym hp
    rcases ps with ⟨kt, ds, psym⟩
    simp only at hpsym
    subst hpsym
    cases kt with
    | some k =>
      simp [WebSocket.spot_topic, paramTag, String.append_assoc]
      rfl
    | none =>
      cases ds with
      | some d =>
        simp [WebSocket.spot_topic, paramTag, String.append_assoc]
        rfl
      | none => simp [WebSocket.spot_topic, paramTag]

/-- Witness for C7 at concrete inputs (a kline message with a params-style
symbol, and a bare-symbol trade message). -/
theorem C7_witness :
    WebSocket.spot_topic
      ⟨some "kline", none, some ⟨some "1m", none, some "BTCUSDT"⟩, none⟩
      = .ok ("kline" ++ "V2"
        ++ paramTag ⟨some "kline", none, some ⟨some "1m", none, some "BTCUSDT"⟩, none⟩
        ++ "." ++ "BTCUSDT") ∧
    WebSocket.spot_topic ⟨some "trade", some "BTCUSD", none, none⟩
      = .ok ("trade" ++ "V1"
        ++ paramTag ⟨some "trade", some "BTCUSD", none, none⟩
        ++ "." ++ "BTCUSD") :=
  ⟨C7_spot_topic.2.1 ⟨some "kline", none, some ⟨some "1m", none, some "BTCUSDT"⟩, none⟩
      "kline" ⟨some "1m", none, some "BTCUSDT"⟩ "BTCUSDT" rfl rfl rfl rfl,
   C7_spot_topic.1 ⟨some "trade", some "BTCUSD", none, none⟩
      "trade" "BTCUSD" rfl rfl⟩

/-- C8: `_reset` resets only the exited flag, the socket handle and the
subscribed-topic list; the handler registry (and the reconnection flag)
are untouched, and the reconnect path of `_on_error` (when reconnection is
enabled) preserves every topic-to-handler binding. -/
theorem C8_reset_preserves_handlers (s : WSState) :
    (WebSocket.reset s).handlers = s.handlers ∧
    (WebSocket.reset s).handle_error = s.handle_error ∧
    (WebSocket.reset s).exited = false ∧
    (WebSocket.reset s).ws = none ∧
    (WebSocket.reset s).subscribed = [] ∧
    (s.handle_error = true →
      ((WebSocket.on_error s).1).handlers = s.handlers ∧
      (WebSocket.on_error s).1 = WebSocket.reset (WebSocket.wsExit s)) := by
  refine ⟨rfl, rfl, rfl, rfl, rfl, ?_⟩
  intro h
  constructor
  · simp [WebSocket.on_error, WebSocket.wsExit, WebSocket.reset, h]
  · simp [WebSocket.on_error, WebSocket.wsExit, h]

/-- Witness for C8 at a concrete session state. -/
theorem C8_witness :
    (WebSocket.reset wsSample).handlers = wsSample.handlers ∧
    (WebSocket.reset wsSample).exited = false ∧
    (WebSocket.reset wsSample).ws = none ∧
    (WebSocket.reset wsSample).subscribed = [] ∧
    ((WebSocket.on_error wsSample).1).handlers = wsSample.handlers :=
  ⟨(C8_reset_preserves_handlers wsSample).1,
   (C8_reset_preserves_handlers wsSample).2.2.1,
   (C8_reset_preserves_handlers wsSample).2.2.2.1,
   (C8_reset_preserves_handlers wsSample).2.2.2.2.1,
   ((C8_reset_preserves_handlers wsSample).2.2.2.2.2 rfl).1⟩

/-- C9: after a streaming `PermissionError` (authentication failure), the
`run_forever` supervisor permanently clears `handle_error` (so no reset
and no reconnect happens), the session ends exited with the socket closed,
the loop breaks, the registry is intact, and the reserved `error_cb`
handler was invoked exactly when one was bound. -/
theorem C9_auth_failure_terminal (s : WSState) :
    (WebSocket.run_forever_on_permission_denied s).state.handle_error
      = false ∧
    (WebSocket.run_forever_on_permission_denied s).state.exited = true ∧
    (WebSocket.run_forever_on_permission_denied s).state.ws = none ∧
    (WebSocket.run_forever_on_permission_denied s).loopExited = true ∧
    (WebSocket.run_forever_on_permission_denied s).state.handlers
      = s.handlers ∧
    (WebSocket.run_forever_on_permission_denied s).errorCbInvoked
      = (s.handlers.lookup "error_cb").isSome := by
  simp [WebSocket.run_forever_on_permission_denied, WebSocket.on_error,
    WebSocket.wsExit, WebSocket.reset]

/-- C10: `bind` rejects any non-coroutine handler with `ValueError`,
leaving the session unchanged; consequently a registry built from the
empty one (or any all-coroutine one) by bind/unbind operations only ever
stores coroutine handlers. -/
theorem C10_bind_coroutine (s : WSState) (topic : String) (f : Handler)
    (ops : List WSOp) (hf : f.isCoroutine = false)
    (hs : allCoroutine s.handlers) :
    WebSocket.bind s topic f
      = .error "Binded handler must be coroutine function!" ∧
    applyOp s (.bindOp topic f) = s ∧
    allCoroutine (applyOps s ops).handlers := by
  refine ⟨?_, ?_, allCoroutine_applyOps ops s hs⟩
  · simp [WebSocket.bind, hf]
  · simp [applyOp, WebSocket.bind, hf]

/-- Witness for C10 at concrete inputs. -/
theorem C10_witness :
    WebSocket.bind wsEmpty "candleV1.1m.BTCUSD" ⟨false, 3⟩
      = .error "Binded handler must be coroutine function!" ∧
    applyOp wsEmpty (.bindOp "candleV1.1m.BTCUSD" ⟨false, 3⟩) = wsEmpty ∧
    allCoroutine (applyOps wsEmpty demoOps).handlers :=
  C10_bind_coroutine wsEmpty "candleV1.1m.BTCUSD" ⟨false, 3⟩ demoOps rfl
    (by simp [allCoroutine, wsEmpty])
